/-
Verification of the trafexia traffic-plane core: a shallow embedding of the
request store (TrafficStorage), the mock engine (MockService), the breakpoint
rendezvous (BreakpointService), the proxy request handlers (ProxyServer) and
the request composer (RequestComposer), with theorems settling the frozen
claims about filter queries, header JSON handling, breakpoint drops, response
ordering, response-field finality, size fidelity, mock precedence, rule
matching, identity resume, and composer id allocation.

Conventions of the embedding:
- Header mappings (`Record<string, string>` in the source) are association
  lists `List (String × String)`; Node's header join/lowercasing has already
  been applied by the time the modelled functions receive them.
- SQLite's `requests` table is a list of rows in rowid (insertion) order plus
  the next auto-increment id.  `ORDER BY timestamp DESC` is modelled as a
  stable sort of that list, matching SQLite's index scan which yields rows
  with equal keys in rowid order.
- `JSON.stringify` / `JSON.parse` on header columns are modelled by an
  executable serializer/parser for the flat string-object sublanguage that the
  store actually writes; any input outside that sublanguage fails to parse,
  as `JSON.parse` throws on malformed input.  Throwing is modelled as `none`.
- Byte buffers are `List Nat`; zlib codecs and the regex engine are opaque
  parameters (they are external libraries), so theorems quantify over them.
-/

import Mathlib

namespace Trafexia

/-! ## JSON header-object sublanguage (models JSON.stringify / JSON.parse
    as used on the `request_headers` / `response_headers` columns) -/

def braceL : Char := Char.ofNat 123

def braceR : Char := Char.ofNat 125

def quoteC : Char := Char.ofNat 34

def backslashC : Char := Char.ofNat 92

/-- Escape one character for a JSON string literal (the escapes
`JSON.stringify` emits for the header strings the store writes). -/
def jsonEscapeChar (c : Char) : List Char :=
  if c = quoteC then [backslashC, quoteC]
  else if c = backslashC then [backslashC, backslashC]
  else if c = '\n' then [backslashC, 'n']
  else if c = '\r' then [backslashC, 'r']
  else if c = '\t' then [backslashC, 't']
  else [c]

def jsonQuote (s : String) : String :=
  String.mk (quoteC :: s.toList.foldr (fun c acc => jsonEscapeChar c ++ acc) [quoteC])

/-- Models `JSON.stringify` applied to a flat string-valued header object. -/
def jsonStringifyObj (hs : List (String × String)) : String :=
  "\x7b" ++ String.intercalate "," (hs.map (fun p => jsonQuote p.1 ++ ":" ++ jsonQuote p.2)) ++ "\x7d"

def jsonUnescapeChar (c : Char) : Char :=
  if c = 'n' then '\n'
  else if c = 'r' then '\r'
  else if c = 't' then '\t'
  else c

/-- Parse the characters of a JSON string literal after its opening quote;
returns the decoded characters and the remainder after the closing quote. -/
def parseStrChars : List Char → Option (List Char × List Char)
  | [] => none
  | c :: rest =>
    if c = quoteC then some ([], rest)
    else if c = backslashC then
      match rest with
      | [] => none
      | e :: rest2 =>
        match parseStrChars rest2 with
        | some (acc, rem) => some (jsonUnescapeChar e :: acc, rem)
        | none => none
    else
      match parseStrChars rest with
      | some (acc, rem) => some (c :: acc, rem)
      | none => none

def isJsonWs (c : Char) : Bool :=
  c = ' ' || c = '\n' || c = '\r' || c = '\t'

def skipWs : List Char → List Char
  | [] => []
  | c :: rest => if isJsonWs c then skipWs rest else c :: rest

/-- Parse the members of a JSON object after the opening brace (and after
having ruled out the immediate-close case).  Fuel bounds the recursion; each
member consumes at least one character, so `length + 1` fuel suffices. -/
def parseMembers : Nat → List Char → Option (List (String × String) × List Char)
  | 0, _ => none
  | fuel + 1, cs =>
    match skipWs cs with
    | [] => none
    | c :: rest =>
      if c = quoteC then
        match parseStrChars rest with
        | none => none
        | some (key, afterKey) =>
          match skipWs afterKey with
          | [] => none
          | c2 :: rest2 =>
            if c2 = ':' then
              match skipWs rest2 with
              | [] => none
              | c3 :: rest3 =>
                if c3 = quoteC then
                  match parseStrChars rest3 with
                  | none => none
                  | some (val, afterVal) =>
                    match skipWs afterVal with
                    | [] => none
                    | c4 :: rest4 =>
                      if c4 = ',' then
                        match parseMembers fuel rest4 with
                        | none => none
                        | some (ms, rem) =>
                          some ((String.mk key, String.mk val) :: ms, rem)
                      else if c4 = braceR then
                        some ([(String.mk key, String.mk val)], rest4)
                      else none
                else none
            else none
      else none

/-- Models `JSON.parse` on the header-object sublanguage: a flat object with
string keys and string values.  Any other input fails (`JSON.parse` throws),
which this model signals with `none`. -/
def jsonParseObj (s : String) : Option (List (String × String)) :=
  match skipWs s.toList with
  | [] => none
  | c :: rest =>
    if c = braceL then
      match skipWs rest with
      | [] => none
      | c2 :: rest2 =>
        if c2 = braceR then
          if skipWs rest2 = [] then some [] else none
        else
          match parseMembers (rest.length + 1) rest with
          | none => none
          | some (ms, rem) => if skipWs rem = [] then some ms else none
    else none

/-! ## Data model (shared/types.ts) -/

/-- `CapturedRequest` from shared/types.ts. -/
structure CapturedRequest where
  id : Nat
  timestamp : Int
  method : String
  url : String
  host : String
  path : String
  status : Nat
  requestHeaders : List (String × String)
  requestBody : Option String
  responseHeaders : List (String × String)
  responseBody : Option String
  contentType : String
  duration : Int
  size : Nat
deriving DecidableEq, Repr

/-- `RequestDbRow` from shared/types.ts: the raw SQLite row, headers still as
JSON strings. -/
structure RequestDbRow where
  id : Nat
  timestamp : Int
  method : String
  url : String
  host : String
  path : String
  status : Nat
  request_headers : String
  request_body : Option String
  response_headers : String
  response_body : Option String
  content_type : String
  duration : Int
  size : Nat
deriving DecidableEq, Repr

/-- `FilterOptions` from shared/types.ts (the fields TrafficStorage.getRequests
consumes).  `none` models an absent (`undefined`) field. -/
structure FilterOptions where
  searchQuery : Option String := none
  methods : Option (List String) := none
  statusCodes : Option (List Nat) := none
  hosts : Option (List String) := none
  contentTypes : Option (List String) := none
  dateRange : Option (Int × Int) := none
  limit : Option Nat := none
  offset : Option Nat := none
deriving DecidableEq, Repr

/-- The `requests` table: rows in rowid (insertion) order plus the next
auto-increment id. -/
structure TrafficStorage where
  rows : List RequestDbRow
  nextId : Nat
deriving DecidableEq, Repr

def TrafficStorage.empty : TrafficStorage := ⟨[], 1⟩

/-- Omit<CapturedRequest, 'id'>: the argument of `saveRequest`. -/
structure NewRequest where
  timestamp : Int
  method : String
  url : String
  host : String
  path : String
  status : Nat
  requestHeaders : List (String × String)
  requestBody : Option String
  responseHeaders : List (String × String)
  responseBody : Option String
  contentType : String
  duration : Int
  size : Nat
deriving DecidableEq, Repr

/-- The data argument of `updateResponse`. -/
structure ResponseUpdate where
  status : Nat
  responseHeaders : List (String × String)
  responseBody : Option String
  contentType : String
  duration : Int
  size : Nat
deriving DecidableEq, Repr

/-! ## TrafficStorage operations -/

/-- `saveRequest`: INSERT the row (headers JSON-stringified), return
`lastInsertRowid` and the updated table. -/
def saveRequest (st : TrafficStorage) (r : NewRequest) : Nat × TrafficStorage :=
  let row : RequestDbRow :=
    { id := st.nextId
      timestamp := r.timestamp
      method := r.method
      url := r.url
      host := r.host
      path := r.path
      status := r.status
      request_headers := jsonStringifyObj r.requestHeaders
      request_body := r.requestBody
      response_headers := jsonStringifyObj r.responseHeaders
      response_body := r.responseBody
      content_type := r.contentType
      duration := r.duration
      size := r.size }
  (st.nextId, ⟨st.rows ++ [row], st.nextId + 1⟩)

def applyResponseUpdate (r : RequestDbRow) (d : ResponseUpdate) : RequestDbRow :=
  { r with
      status := d.status
      response_headers := jsonStringifyObj d.responseHeaders
      response_body := d.responseBody
      content_type := d.contentType
      duration := d.duration
      size := d.size }

/-- `updateResponse`: UPDATE the response columns of every row WHERE id = ?.
The SQL carries no condition on the current status. -/
def updateResponse (st : TrafficStorage) (i : Nat) (d : ResponseUpdate) : TrafficStorage :=
  ⟨st.rows.map (fun r => if r.id = i then applyResponseUpdate r d else r), st.nextId⟩

/-- `q` occurs at the head of `hay`. -/
def charsStartWith : List Char → List Char → Bool
  | [], _ => true
  | _ :: _, [] => false
  | a :: as, b :: bs => a == b && charsStartWith as bs

/-- `q` occurs somewhere inside `hay`. -/
def charsInfix (q : List Char) : List Char → Bool
  | [] => q.isEmpty
  | c :: rest => charsStartWith q (c :: rest) || charsInfix q rest

/-- Case-insensitive substring test: models SQLite `LIKE '%q%'`. -/
def likeContains (hay q : String) : Bool :=
  charsInfix q.toLower.toList hay.toLower.toList

/-- The `searchQuery` condition: `url LIKE ? OR host LIKE ? OR path LIKE ?`,
guarded by JS truthiness (`if (filter.searchQuery)`), so an absent or empty
query filters nothing. -/
def searchPasses (q : Option String) (r : RequestDbRow) : Bool :=
  match q with
  | none => true
  | some s =>
    if s = "" then true
    else likeContains r.url s || likeContains r.host s || likeContains r.path s

/-- `method IN (…)` etc., guarded by `filter.xs && filter.xs.length > 0`. -/
def inListPasses (l : Option (List String)) (v : String) : Bool :=
  match l with
  | none => true
  | some xs => if xs.isEmpty then true else xs.contains v

def inNatListPasses (l : Option (List Nat)) (v : Nat) : Bool :=
  match l with
  | none => true
  | some xs => if xs.isEmpty then true else xs.contains v

/-- `content_type LIKE '%t%'` disjunction over the entries. -/
def contentTypePasses (l : Option (List String)) (ct : String) : Bool :=
  match l with
  | none => true
  | some xs => if xs.isEmpty then true else xs.any (fun t => likeContains ct t)

/-- `timestamp >= start AND timestamp <= end`. -/
def dateRangePasses (dr : Option (Int × Int)) (ts : Int) : Bool :=
  match dr with
  | none => true
  | some (s, e) => decide (s ≤ ts) && decide (ts ≤ e)

/-- The WHERE clause `getRequests` builds from a filter. -/
def rowPassesFilter (f : Option FilterOptions) (r : RequestDbRow) : Bool :=
  match f with
  | none => true
  | some fo =>
    searchPasses fo.searchQuery r &&
    inListPasses fo.methods r.method &&
    inNatListPasses fo.statusCodes r.status &&
    inListPasses fo.hosts r.host &&
    contentTypePasses fo.contentTypes r.content_type &&
    dateRangePasses fo.dateRange r.timestamp

/-- The comparison realised by `ORDER BY timestamp DESC`. -/
def tsDesc (a b : RequestDbRow) : Prop := b.timestamp ≤ a.timestamp

instance : DecidableRel tsDesc :=
  fun a b => inferInstanceAs (Decidable (b.timestamp ≤ a.timestamp))

instance : IsTotal RequestDbRow tsDesc :=
  ⟨fun a b => le_total b.timestamp a.timestamp⟩

instance : IsTrans RequestDbRow tsDesc :=
  ⟨fun _ _ _ h1 h2 => le_trans h2 h1⟩

/-- `LIMIT ? [OFFSET ?]`, appended only when `filter.limit` is truthy, and the
OFFSET clause only when `filter.offset` is truthy. -/
def applyPagination (limit offset : Option Nat) (l : List RequestDbRow) : List RequestDbRow :=
  match limit with
  | none => l
  | some n =>
    if n = 0 then l
    else
      let off := match offset with
        | none => 0
        | some m => m
      (l.drop off).take n

/-- `getRequests` at the row level: WHERE, ORDER BY timestamp DESC (a stable
sort: rows with equal timestamps stay in rowid order, as SQLite's
`idx_timestamp` scan yields them), then pagination. -/
def getRequestsRows (st : TrafficStorage) (f : Option FilterOptions) : List RequestDbRow :=
  let sorted := List.insertionSort tsDesc (st.rows.filter (rowPassesFilter f))
  match f with
  | none => sorted
  | some fo => applyPagination fo.limit fo.offset sorted

/-- The `row.request_headers || '\x7b\x7d'` fallback in `mapRowToRequest`:
JS `||` replaces only the empty string (or null), not malformed content. -/
def orEmptyObj (s : String) : String := if s = "" then "\x7b\x7d" else s

/-- `mapRowToRequest`: decode the header JSON columns.  `JSON.parse` throwing
on malformed content is modelled by `none`. -/
def mapRowToRequest (row : RequestDbRow) : Option CapturedRequest :=
  match jsonParseObj (orEmptyObj row.request_headers),
        jsonParseObj (orEmptyObj row.response_headers) with
  | some reqH, some resH =>
    some
      { id := row.id
        timestamp := row.timestamp
        method := row.method
        url := row.url
        host := row.host
        path := row.path
        status := row.status
        requestHeaders := reqH
        requestBody := row.request_body
        responseHeaders := resH
        responseBody := row.response_body
        contentType := row.content_type
        duration := row.duration
        size := row.size }
  | _, _ => none

/-- `getRequests`: map the selected rows; a parse failure in any row makes the
whole call throw (`none`). -/
def getRequests (st : TrafficStorage) (f : Option FilterOptions) :
    Option (List CapturedRequest) :=
  (getRequestsRows st f).mapM mapRowToRequest

/-- `SELECT * FROM requests WHERE id = ?` (first match; ids are unique). -/
def findRow (st : TrafficStorage) (i : Nat) : Option RequestDbRow :=
  st.rows.find? (fun r => r.id == i)

/-- `getRequestById`: outer `none` models a thrown JSON error, inner layer the
`row ? … : null` result. -/
def getRequestById (st : TrafficStorage) (i : Nat) : Option (Option CapturedRequest) :=
  match findRow st i with
  | none => some none
  | some row => (mapRowToRequest row).map some

/-- `getRequestCount`: its WHERE clause handles only `filter?.searchQuery`. -/
def getRequestCount (st : TrafficStorage) (f : Option FilterOptions) : Nat :=
  (st.rows.filter (fun r => searchPasses (f.bind (·.searchQuery)) r)).length

/-! ## MockService

The regex engine is external (`new RegExp(pattern, 'i')` + `.test(url)`), so
it is a parameter: `oracle pattern url = none` models a pattern whose
compilation throws, `some b` the case-insensitive test result. -/

abbrev RegexOracle := String → String → Option Bool

/-- `MockRule` from shared/types.ts.  `method = none` models an absent
optional method filter. -/
structure MockRule where
  id : String
  enabled : Bool
  name : String
  urlPattern : String
  method : Option String
  responseStatus : Nat
  responseHeaders : List (String × String)
  responseBody : String
  delay : Option Nat
deriving DecidableEq, Repr

/-- The guard `rule.method && rule.method !== method`: an absent or empty
(falsy) method field never causes a skip. -/
def ruleSkipsByMethod (ruleMethod : Option String) (method : String) : Bool :=
  match ruleMethod with
  | none => false
  | some m => !(m == "") && !(m == method)

/-- `MockService.findMatchingRule`: linear scan in insertion order; skip
disabled rules, method mismatches, invalid patterns (`oracle … = none`,
the catch branch) and non-matching patterns; return the first hit. -/
def findMatchingRule (oracle : RegexOracle) :
    List MockRule → String → String → Option MockRule
  | [], _, _ => none
  | r :: rest, method, url =>
    if !r.enabled then findMatchingRule oracle rest method url
    else if ruleSkipsByMethod r.method method then findMatchingRule oracle rest method url
    else
      match oracle r.urlPattern url with
      | some true => some r
      | _ => findMatchingRule oracle rest method url

structure MockResponse where
  status : Nat
  headers : List (String × String)
  body : String
deriving DecidableEq, Repr

/-- `MockService.generateMockResponse`: a copy of the rule's literal fields. -/
def generateMockResponse (r : MockRule) : MockResponse :=
  ⟨r.responseStatus, r.responseHeaders, r.responseBody⟩

/-- A rule qualifies for `(method, url)` when it is enabled, its method filter
does not skip, and its pattern compiles and matches. -/
def ruleQualifies (oracle : RegexOracle) (method url : String) (r : MockRule) : Bool :=
  r.enabled && !ruleSkipsByMethod r.method method && (oracle r.urlPattern url == some true)

/-! ## BreakpointService -/

/-- `InterceptedRequest` from shared/types.ts. -/
structure InterceptedRequest where
  id : String
  type : String
  timestamp : Int
  method : String
  url : String
  headers : List (String × String)
  body : Option String
  status : Option Nat
deriving DecidableEq, Repr

/-- `BreakpointConfig` from shared/types.ts. -/
structure BreakpointConfig where
  enabled : Bool
  breakOnRequest : Bool
  breakOnResponse : Bool
  urlPattern : Option String := none
deriving DecidableEq, Repr

/-- `BreakpointService.shouldBreak` (the `_method` argument is unused by the
source, so it is omitted). -/
def shouldBreak (oracle : RegexOracle) (cfg : BreakpointConfig)
    (type : String) (url : String) : Bool :=
  if !cfg.enabled then false
  else if type == "request" && !cfg.breakOnRequest then false
  else if type == "response" && !cfg.breakOnResponse then false
  else
    match cfg.urlPattern with
    | none => true
    | some p =>
      if p == "" then true
      else
        match oracle p url with
        | some b => b
        | none => false

/-- The `pendingRequests` map: pending id → original snapshot.  The reply slot
is modelled by the action the resolving operation returns. -/
structure BreakpointState where
  pending : List (String × InterceptedRequest)
deriving DecidableEq, Repr

/-- What a resolving operation does to the promise held by the paused task. -/
inductive BpAction where
  | resolved (v : InterceptedRequest)
  | rejected (msg : String)
deriving DecidableEq, Repr

def findPending (st : BreakpointState) (i : String) : Option InterceptedRequest :=
  (st.pending.find? (fun p => p.1 == i)).map (·.2)

def removePending (st : BreakpointState) (i : String) : BreakpointState :=
  ⟨st.pending.filter (fun p => !(p.1 == i))⟩

/-- `BreakpointService.continue`: if a pending entry exists, delete it and
resolve with `modified || pending.intercepted`; otherwise do nothing. -/
def bpContinue (st : BreakpointState) (i : String)
    (modified : Option InterceptedRequest) : BreakpointState × Option BpAction :=
  match findPending st i with
  | none => (st, none)
  | some entry => (removePending st i, some (.resolved (modified.getD entry)))

/-- `BreakpointService.drop`: if a pending entry exists, delete it and reject
with `Error('Request dropped by user')`; otherwise do nothing. -/
def bpDrop (st : BreakpointState) (i : String) : BreakpointState × Option BpAction :=
  match findPending st i with
  | none => (st, none)
  | some _ => (removePending st i, some (.rejected "Request dropped by user"))

/-! ## ProxyServer: plain-HTTP and MITM request handling -/

/-- Lookup `headers[k] || ''` on an already-joined header mapping. -/
def getHeader (hs : List (String × String)) (k : String) : String :=
  match hs.find? (fun p => p.1 == k) with
  | some p => p.2
  | none => ""

/-- `delete headers[k]`. -/
def removeHeader (hs : List (String × String)) (k : String) : List (String × String) :=
  hs.filter (fun p => !(p.1 == k))

/-- `headers[k] = v`. -/
def setHeader (hs : List (String × String)) (k v : String) : List (String × String) :=
  if hs.any (fun p => p.1 == k) then hs.map (fun p => if p.1 == k then (k, v) else p)
  else hs ++ [(k, v)]

/-- The zlib decompressors, opaque to the embedding; `none` models a thrown
decompression error. -/
structure Codecs where
  gunzip : List Nat → Option (List Nat)
  inflate : List Nat → Option (List Nat)
  brotliDecompress : List Nat → Option (List Nat)

/-- The `contentEncoding` dispatch with its try/catch: on failure (or an
unsupported encoding) the original buffer is kept. -/
def decompressForStorage (c : Codecs) (enc : String) (b : List Nat) : List Nat :=
  if enc == "gzip" then (c.gunzip b).getD b
  else if enc == "deflate" then (c.inflate b).getD b
  else if enc == "br" then (c.brotliDecompress b).getD b
  else b

def maxResponseStoredSize : Nat := 5 * 1024 * 1024

/-- The stored-body policy: UTF-8 text under the cap, placeholder above it.
`utf8` stands for `Buffer.prototype.toString('utf-8')`. -/
def bodyForStorage (utf8 : List Nat → String) (d : List Nat) : String :=
  if d.length ≤ maxResponseStoredSize then utf8 d
  else "[Body too large: " ++ toString d.length ++ " bytes]"

/-- The upstream response as the handlers see it at `end`: status
(`0` models an undefined `statusCode`), already-joined headers, and the raw
on-wire body bytes. -/
structure UpstreamResponse where
  statusCode : Nat
  statusMessage : String
  headers : List (String × String)
  bodyBytes : List Nat
deriving DecidableEq, Repr

/-- What is written back to the client.  `text` carries a synthesized textual
response (mock / drop / 502), `piped` the status, headers and on-wire body
bytes forwarded from the origin; wire framing (status line, Content-Length
rewrite) is abstracted to these fields. -/
inductive ClientReply where
  | text (status : Nat) (headers : List (String × String)) (body : String)
  | piped (status : Nat) (headers : List (String × String)) (body : List Nat)
deriving DecidableEq, Repr

/-- `handleProxyResponse`'s `end` handler (plain-HTTP path): store the
decompressed copy with the on-wire size, forward the original bytes
(`proxyRes.pipe(clientRes)` after `writeHead(statusCode || 200, headers)`). -/
def handleProxyResponseEnd (c : Codecs) (utf8 : List Nat → String)
    (requestId : Nat) (startTime now : Int)
    (res : UpstreamResponse) (st : TrafficStorage) : TrafficStorage × ClientReply :=
  let duration := now - startTime
  let bodyBuffer := res.bodyBytes
  let contentType := getHeader res.headers "content-type"
  let contentEncoding := getHeader res.headers "content-encoding"
  let decompressedBuffer := decompressForStorage c contentEncoding bodyBuffer
  let bodyStr := bodyForStorage utf8 decompressedBuffer
  let st2 := updateResponse st requestId
    { status := res.statusCode
      responseHeaders := res.headers
      responseBody := some bodyStr
      contentType := contentType
      duration := duration
      size := bodyBuffer.length }
  (st2, .piped (if res.statusCode = 0 then 200 else res.statusCode) res.headers bodyBuffer)

/-- The parsed plain-HTTP client request as `handleRequest`'s `end` closure
sees it.  `method = ""` models an undefined `clientReq.method`. -/
structure PlainRequest where
  method : String
  url : String
  hostname : String
  pathSearch : String
  headers : List (String × String)
  bodyStr : String
deriving DecidableEq, Repr

/-- `clientReq.method || 'GET'`. -/
def methodOrGet (m : String) : String := if m = "" then "GET" else m

/-- `s || null`. -/
def strOrNull (s : String) : Option String := if s = "" then none else some s

/-- The outcome of a breakpoint pause as the awaiting handler observes it:
`resume none` models a resolution with `null` (watchdog timeout), `resume
(some m)` a resolution with a snapshot (identity resume passes the original
snapshot), `dropped` a rejection. -/
inductive BpVerdict where
  | resume (modified : Option InterceptedRequest)
  | dropped
deriving DecidableEq, Repr

/-- The upstream request `http.request(options)` is issued with, plus the body
bytes actually written (`if (reqBodyStr) proxyReq.write(reqBodyStr)`). -/
structure UpstreamCall where
  method : String
  headers : List (String × String)
  bodyWritten : String
deriving DecidableEq, Repr

structure HandleOutcome where
  store : TrafficStorage
  reply : ClientReply
  upstreamCall : Option UpstreamCall
deriving DecidableEq, Repr

/-- The forwarding tail of `handleRequest` (after mock and breakpoint checks):
persist the pending row, issue the upstream request, and either record the
502 error path or run `handleProxyResponse`. -/
def forwardPhase (c : Codecs) (utf8 : List Nat → String)
    (upstream : Except String UpstreamResponse)
    (req : PlainRequest) (optsMethod : String) (optsHeaders : List (String × String))
    (startTime now : Int) (st : TrafficStorage) : HandleOutcome :=
  let captured : NewRequest :=
    { timestamp := startTime
      method := methodOrGet req.method
      url := req.url
      host := req.hostname
      path := req.pathSearch
      status := 0
      requestHeaders := req.headers
      requestBody := strOrNull req.bodyStr
      responseHeaders := []
      responseBody := none
      contentType := ""
      duration := 0
      size := 0 }
  let idSt := saveRequest st captured
  match upstream with
  | .error msg =>
    let st2 := updateResponse idSt.2 idSt.1
      { status := 502
        responseHeaders := []
        responseBody := some msg
        contentType := "text/plain"
        duration := now - startTime
        size := 0 }
    { store := st2
      reply := .text 502 [] ("Proxy Error: " ++ msg)
      upstreamCall := some ⟨optsMethod, optsHeaders, req.bodyStr⟩ }
  | .ok res =>
    let stReply := handleProxyResponseEnd c utf8 idSt.1 startTime now res idSt.2
    { store := stReply.1
      reply := stReply.2
      upstreamCall := some ⟨optsMethod, optsHeaders, req.bodyStr⟩ }

/-- The synthetic exchange `handleRequest` persists on a mock hit
(ProxyServer.ts lines 218–232). -/
def plainMockCaptured (rule : MockRule) (req : PlainRequest) (startTime now : Int) : NewRequest :=
  let mock := generateMockResponse rule
  { timestamp := startTime
    method := methodOrGet req.method
    url := req.url
    host := req.hostname
    path := req.pathSearch
    status := mock.status
    requestHeaders := req.headers
    requestBody := strOrNull req.bodyStr
    responseHeaders := mock.headers
    responseBody := some mock.body
    contentType :=
      (fun ct => if ct = "" then "text/plain" else ct) (getHeader mock.headers "content-type")
    duration := now - startTime + (rule.delay.getD 0)
    size := mock.body.utf8ByteSize }

/-- `handleRequest`'s `end` closure (ProxyServer.ts lines 201–322): mock
check, breakpoint check, then the forwarding phase.  `mocks = none` models an
absent `mockService`, `bp = none` an absent `breakpointService`; `verdict` is
the controller's resolution of a pause, consumed only when the breakpoint
actually arms. -/
def handleRequestEnd
    (oracle : RegexOracle) (mocks : Option (List MockRule))
    (bp : Option BreakpointConfig) (verdict : BpVerdict)
    (c : Codecs) (utf8 : List Nat → String)
    (upstream : Except String UpstreamResponse)
    (req : PlainRequest) (startTime now : Int)
    (st : TrafficStorage) : HandleOutcome :=
  match mocks.bind (fun rules => findMatchingRule oracle rules (methodOrGet req.method) req.url) with
  | some rule =>
    let mock := generateMockResponse rule
    let idSt := saveRequest st (plainMockCaptured rule req startTime now)
    { store := idSt.2
      reply := .text mock.status mock.headers mock.body
      upstreamCall := none }
  | none =>
    let baseMethod := req.method
    let baseHeaders := removeHeader req.headers "proxy-connection"
    let hit := match bp with
      | none => false
      | some cfg => shouldBreak oracle cfg "request" req.url
    if hit then
      match verdict with
      | .dropped =>
        { store := st
          reply := .text 499 [("Content-Type", "text/plain")] "Request dropped by user"
          upstreamCall := none }
      | .resume none =>
        forwardPhase c utf8 upstream req baseMethod baseHeaders startTime now st
      | .resume (some m) =>
        forwardPhase c utf8 upstream req m.method m.headers startTime now st
    else
      forwardPhase c utf8 upstream req baseMethod baseHeaders startTime now st

/-- The snapshot `handleRequest` hands to `pauseAtBreakpoint` (ProxyServer.ts
lines 250–256 together with BreakpointService.ts lines 68–78): an identity
resume resolves the pause with exactly this value. -/
def plainRequestSnapshot (i : String) (ts : Int) (req : PlainRequest) : InterceptedRequest :=
  ⟨i, "request", ts, methodOrGet req.method, req.url, req.headers, strOrNull req.bodyStr, none⟩

/-! ### MITM (HTTPS) path -/

/-- The parsed inner request `processHttpsRequest` receives. -/
structure HttpsRequest where
  hostname : String
  port : Nat
  method : String
  path : String
  headers : List (String × String)
  bodyBytes : List Nat
deriving DecidableEq, Repr

structure HttpsUpstreamCall where
  method : String
  headers : List (String × String)
  bodyBytes : List Nat
deriving DecidableEq, Repr

structure HttpsOutcome where
  store : TrafficStorage
  reply : ClientReply
  upstreamCall : Option HttpsUpstreamCall
deriving DecidableEq, Repr

/-- The `proxyRes.on('end', …)` handler inside `processHttpsRequest`
(ProxyServer.ts lines 586–669): store the decompressed copy with the original
on-wire size, then write the original compressed buffer to the client with
`Transfer-Encoding` dropped and `Content-Length` rewritten. -/
def httpsResponseEnd (c : Codecs) (utf8 : List Nat → String)
    (requestId : Nat) (startTime now : Int)
    (res : UpstreamResponse) (st : TrafficStorage) : TrafficStorage × ClientReply :=
  let duration := now - startTime
  let originalBodyBuffer := res.bodyBytes
  let contentType := getHeader res.headers "content-type"
  let contentEncoding := getHeader res.headers "content-encoding"
  let decompressedBuffer := decompressForStorage c contentEncoding originalBodyBuffer
  let bodyStr := bodyForStorage utf8 decompressedBuffer
  let st2 := updateResponse st requestId
    { status := res.statusCode
      responseHeaders := res.headers
      responseBody := some bodyStr
      contentType := contentType
      duration := duration
      size := originalBodyBuffer.length }
  (st2, .piped res.statusCode (removeHeader res.headers "transfer-encoding") originalBodyBuffer)

/-- The synthesized absolute URL
`https://hostname[:port]path` (ProxyServer.ts line 502). -/
def httpsFullUrl (req : HttpsRequest) : String :=
  "https://" ++ req.hostname ++ (if req.port ≠ 443 then ":" ++ toString req.port else "") ++ req.path

/-- The synthetic exchange `sendMockResponseToHttpsClient` persists
(ProxyServer.ts lines 709–723). -/
def httpsMockCaptured (utf8 : List Nat → String) (rule : MockRule) (req : HttpsRequest)
    (startTime now : Int) : NewRequest :=
  let mock := generateMockResponse rule
  { timestamp := startTime
    method := req.method
    url := httpsFullUrl req
    host := req.hostname
    path := req.path
    status := mock.status
    requestHeaders := req.headers
    requestBody := if req.bodyBytes.isEmpty then none else some (utf8 req.bodyBytes)
    responseHeaders := mock.headers
    responseBody := some mock.body
    contentType :=
      (fun ct => if ct = "" then "text/plain" else ct) (getHeader mock.headers "content-type")
    duration := now - startTime + (rule.delay.getD 0)
    size := mock.body.utf8ByteSize }

/-- `processHttpsRequest` (ProxyServer.ts lines 492–690), with
`sendMockResponseToHttpsClient` (lines 695–751) inlined at its call sites. -/
def processHttpsRequest
    (oracle : RegexOracle) (mocks : Option (List MockRule))
    (c : Codecs) (utf8 : List Nat → String)
    (upstream : Except String UpstreamResponse)
    (req : HttpsRequest) (startTime now : Int)
    (st : TrafficStorage) : HttpsOutcome :=
  let fullUrl := httpsFullUrl req
  let outHeaders := setHeader (removeHeader req.headers "proxy-connection") "host" req.hostname
  match mocks.bind (fun rules => findMatchingRule oracle rules req.method fullUrl) with
  | some rule =>
    let mock := generateMockResponse rule
    let idSt := saveRequest st (httpsMockCaptured utf8 rule req startTime now)
    { store := idSt.2
      reply := .text mock.status mock.headers mock.body
      upstreamCall := none }
  | none =>
    let captured : NewRequest :=
      { timestamp := startTime
        method := req.method
        url := fullUrl
        host := req.hostname
        path := req.path
        status := 0
        requestHeaders := req.headers
        requestBody := if req.bodyBytes.isEmpty then none else some (utf8 req.bodyBytes)
        responseHeaders := []
        responseBody := none
        contentType := ""
        duration := 0
        size := 0 }
    let idSt := saveRequest st captured
    match upstream with
    | .error msg =>
      let st2 := updateResponse idSt.2 idSt.1
        { status := 502
          responseHeaders := []
          responseBody := some msg
          contentType := "text/plain"
          duration := now - startTime
          size := 0 }
      { store := st2
        reply := .text 502 [] ""
        upstreamCall := some ⟨req.method, outHeaders, req.bodyBytes⟩ }
    | .ok res =>
      let stReply := httpsResponseEnd c utf8 idSt.1 startTime now res idSt.2
      { store := stReply.1
        reply := stReply.2
        upstreamCall := some ⟨req.method, outHeaders, req.bodyBytes⟩ }

/-! ## RequestComposer -/

/-- `ComposedRequest` from shared/types.ts. -/
structure ComposedRequest where
  method : String
  url : String
  headers : List (String × String)
  body : Option String
deriving DecidableEq, Repr

/-- The composer's private mutable state: `requestIdCounter`, initialised to
1000000 ("Start from high number to avoid conflicts"). -/
structure ComposerState where
  requestIdCounter : Nat
deriving DecidableEq, Repr

def ComposerState.init : ComposerState := ⟨1000000⟩

/-- The response `sendRequest`'s callback receives: status (`0` models an
undefined `statusCode`), lowercased joined headers, decoded UTF-8 body. -/
structure ComposerResponse where
  statusCode : Nat
  headers : List (String × String)
  body : String
deriving DecidableEq, Repr

/-- `RequestComposer.sendRequest`: allocate `requestIdCounter++` as the id and
build the returned `CapturedRequest`.  URL parsing is external, so the parsed
`hostname` and `pathname + search` are parameters.  `size` is the JS string
length of the response body. -/
def composerSendRequest (cs : ComposerState) (req : ComposedRequest)
    (parsedHost parsedPathSearch : String) (startTime now : Int)
    (res : ComposerResponse) : CapturedRequest × ComposerState :=
  let requestId := cs.requestIdCounter
  let captured : CapturedRequest :=
    { id := requestId
      timestamp := startTime
      method := req.method
      url := req.url
      host := parsedHost
      path := parsedPathSearch
      status := res.statusCode
      requestHeaders := req.headers
      requestBody := req.body
      responseHeaders := res.headers
      responseBody := strOrNull res.body
      contentType :=
        (fun ct => if ct = "" then "text/plain" else ct) (getHeader res.headers "content-type")
      duration := now - startTime
      size := res.body.length }
  (captured, ⟨cs.requestIdCounter + 1⟩)

/-- `RequestComposer.replayRequest`: rebuild a `ComposedRequest` from the
stored row's request side and call `sendRequest`. -/
def composerReplayRequest (cs : ComposerState) (orig : CapturedRequest)
    (parsedHost parsedPathSearch : String) (startTime now : Int)
    (res : ComposerResponse) : CapturedRequest × ComposerState :=
  let composed : ComposedRequest :=
    { method := orig.method
      url := orig.url
      headers := orig.requestHeaders
      body := match orig.requestBody with
        | none => none
        | some s => strOrNull s }
  composerSendRequest cs composed parsedHost parsedPathSearch startTime now res

/-- One `sendRequest` call's inputs, for describing call sequences. -/
structure ComposerCall where
  req : ComposedRequest
  parsedHost : String
  parsedPathSearch : String
  startTime : Int
  now : Int
  res : ComposerResponse
deriving DecidableEq, Repr

/-- The captures produced by a sequence of `sendRequest` calls, threading the
composer state. -/
def runComposer (cs : ComposerState) : List ComposerCall → List CapturedRequest
  | [] => []
  | call :: rest =>
    let capSt := composerSendRequest cs call.req call.parsedHost call.parsedPathSearch
      call.startTime call.now call.res
    capSt.1 :: runComposer capSt.2 rest

/-! ## Claim-side predicates -/

/-- The ordering the specification asserts for `list`: timestamp descending
with ties broken by id descending.  Stated from the spec's words, to be
compared with the ordering the code produces. -/
def claimedOrder (a b : RequestDbRow) : Prop :=
  b.timestamp < a.timestamp ∨ (a.timestamp = b.timestamp ∧ b.id < a.id)

instance : DecidableRel claimedOrder :=
  fun a b =>
    inferInstanceAs (Decidable (b.timestamp < a.timestamp ∨ (a.timestamp = b.timestamp ∧ b.id < a.id)))

/-- Decode under a supported `Content-Encoding`: `some` exactly when the
encoding is `gzip`/`deflate`/`br` and the corresponding zlib call succeeds. -/
def supportedDecode (c : Codecs) (enc : String) (b : List Nat) : Option (List Nat) :=
  if enc == "gzip" then c.gunzip b
  else if enc == "deflate" then c.inflate b
  else if enc == "br" then c.brotliDecompress b
  else none

/-! ## Concrete fixtures (inputs for counterexamples and witnesses) -/

/-- A regex oracle on which every pattern compiles and matches. -/
def oracleTrueFix : RegexOracle := fun _ _ => some true

/-- Codecs whose decompressors succeed and return a fixed plaintext. -/
def cFix : Codecs := ⟨fun _ => some [104, 105], fun _ => some [104, 105], fun _ => some [104, 105]⟩

/-- A concrete UTF-8 decoder for witnesses (byte values below 128 decode as
themselves, which covers the fixture bodies). -/
def utf8Fix : List Nat → String := fun b => String.mk (b.map Char.ofNat)

def wfRow1 : RequestDbRow :=
  { id := 1, timestamp := 100, method := "POST", url := "http://a.test/x", host := "a.test"
    path := "/x", status := 200, request_headers := "\x7b\x7d", request_body := none
    response_headers := "\x7b\x7d", response_body := none, content_type := "", duration := 0
    size := 0 }

def wfRow2 : RequestDbRow := { wfRow1 with id := 2, method := "GET" }

def stOne : TrafficStorage := ⟨[wfRow1], 2⟩

/-- Two rows with equal timestamps, inserted as ids 1 then 2. -/
def stTwo : TrafficStorage := ⟨[wfRow1, wfRow2], 3⟩

def fMethodsGET : FilterOptions := { methods := some ["GET"] }

def rowMalformedFix : RequestDbRow := { wfRow1 with response_headers := "xyz" }

def stMalformedFix : TrafficStorage := ⟨[rowMalformedFix], 2⟩

def rowEmptyHFix : RequestDbRow := { wfRow1 with request_headers := "", response_headers := "" }

def stEmptyHFix : TrafficStorage := ⟨[rowEmptyHFix], 2⟩

def preqFix : PlainRequest :=
  ⟨"GET", "http://a.test/x", "a.test", "/x", [("proxy-connection", "keep-alive")], ""⟩

def bpOnFix : BreakpointConfig := ⟨true, true, false, none⟩

def snapFix : InterceptedRequest :=
  ⟨"a", "request", 100, "GET", "http://a.test/x", [], none, none⟩

def nrFix : NewRequest :=
  { timestamp := 100, method := "GET", url := "u", host := "h", path := "/p", status := 0
    requestHeaders := [], requestBody := none, responseHeaders := [], responseBody := none
    contentType := "", duration := 0, size := 0 }

def d200Fix : ResponseUpdate := ⟨200, [], some "ok", "text/plain", 5, 2⟩

def d500Fix : ResponseUpdate := ⟨500, [], some "err", "text/html", 9, 3⟩

/-- The store after saving one exchange and finalising it with status 200. -/
def c5StFinal : TrafficStorage :=
  updateResponse (saveRequest TrafficStorage.empty nrFix).2 1 d200Fix

/-- The single row of `c5StFinal`, written out. -/
def c5Row : RequestDbRow :=
  { id := 1, timestamp := 100, method := "GET", url := "u", host := "h", path := "/p"
    status := 200, request_headers := "\x7b\x7d", request_body := none
    response_headers := "\x7b\x7d", response_body := some "ok", content_type := "text/plain"
    duration := 5, size := 2 }

def ruleFix : MockRule :=
  ⟨"r1", true, "teapot", ".*", none, 418, [("content-type", "application/json")], "teapot", some 50⟩

def hreqFix : HttpsRequest :=
  ⟨"secure.test", 443, "GET", "/x", [("host", "secure.test")], []⟩

/-- An upstream response carrying `Content-Encoding: gzip`. -/
def resFix : UpstreamResponse :=
  ⟨200, "OK", [("content-type", "text/plain"), ("content-encoding", "gzip")], [31, 139, 8]⟩

def callFix : ComposerCall :=
  ⟨⟨"GET", "http://a.test/x", [], none⟩, "a.test", "/x", 100, 110, ⟨200, [], "hello"⟩⟩

/-- The capture the first composer call produces from the initial state. -/
def capFix : CapturedRequest :=
  (composerSendRequest ComposerState.init callFix.req callFix.parsedHost
    callFix.parsedPathSearch callFix.startTime callFix.now callFix.res).1

/-! ## Helper lemmas -/

theorem length_insertionSortRows (l : List RequestDbRow) :
    (List.insertionSort tsDesc l).length = l.length :=
  (List.perm_insertionSort tsDesc l).length_eq

theorem find?_map_update (i : Nat) (d : ResponseUpdate) :
    ∀ l : List RequestDbRow,
      (l.map (fun r => if r.id = i then applyResponseUpdate r d else r)).find?
          (fun r => r.id == i) =
        (l.find? (fun r => r.id == i)).map (fun r => applyResponseUpdate r d)
  | [] => rfl
  | r :: t => by
    by_cases h : r.id = i
    · subst h
      simp [List.find?, applyResponseUpdate]
    · have hb : (r.id == i) = false := beq_eq_false_iff_ne.mpr h
      simp only [List.map_cons, List.find?, if_neg h, hb]
      exact find?_map_update i d t

theorem findRow_updateResponse (st : TrafficStorage) (i : Nat) (d : ResponseUpdate) :
    findRow (updateResponse st i d) i =
      (findRow st i).map (fun r => applyResponseUpdate r d) :=
  find?_map_update i d st.rows

theorem applyPagination_sublist (lim off : Option Nat) (l : List RequestDbRow) :
    List.Sublist (applyPagination lim off l) l := by
  unfold applyPagination
  match lim with
  | none => exact List.Sublist.refl l
  | some n =>
    by_cases h : n = 0
    · simp [h]
    · simp only [h, if_false]
      exact (List.take_sublist _ _).trans (List.drop_sublist _ _)

theorem rowPassesFilter_searchOnly (q : Option String) (r : RequestDbRow) :
    rowPassesFilter (some { searchQuery := q }) r = searchPasses q r := by
  simp [rowPassesFilter, inListPasses, inNatListPasses, contentTypePasses, dateRangePasses]

/-! ## Claims -/

/-- C1, counterexample: with a single stored `POST` row and the filter
`methods = ["GET"]`, `getRequests` returns no rows while `getRequestCount`
returns 1 — the count operation ignores the methods filter, so
`list(f).len() == count(f)` fails. -/
theorem C1_filter_equivalence_counterexample :
    getRequests stOne (some fMethodsGET) = some [] ∧
    getRequestCount stOne (some fMethodsGET) = 1 ∧
    ¬ ((getRequestsRows stOne (some fMethodsGET)).length =
        getRequestCount stOne (some fMethodsGET)) := by
  refine ⟨rfl, rfl, by decide⟩

/-- C1, amended: `getRequestCount` applies only the search-query part of the
filter, so the row counts of `getRequests` and `getRequestCount` agree for
every filter whose only set field is `searchQuery` (no methods, status codes,
hosts, content types, date range, or pagination). -/
theorem C1_filter_equivalence_amended (st : TrafficStorage) (q : Option String) :
    (getRequestsRows st (some { searchQuery := q })).length =
      getRequestCount st (some { searchQuery := q }) := by
  unfold getRequestsRows getRequestCount applyPagination
  simp only
  rw [length_insertionSortRows]
  congr 1
  apply List.filter_congr
  intro r _
  exact rowPassesFilter_searchOnly q r

/-- C2, counterexample: a stored row whose `response_headers` column holds the
malformed JSON `"xyz"` makes both `getRequestById` and `getRequests` throw
(`JSON.parse` raises; the `|| '\x7b\x7d'` fallback replaces only an empty
column) — reading back does not degrade to `\x7b\x7d`. -/
theorem C2_headers_degrade_counterexample :
    getRequestById stMalformedFix 1 = none ∧ getRequests stMalformedFix none = none := by
  exact ⟨rfl, rfl⟩

/-- C2, amended: the degradation to `\x7b\x7d` happens only for an empty (or
null) header column — for every stored row whose header columns are empty
strings, `getRequestById` succeeds and returns empty header mappings.
Malformed non-empty JSON instead propagates a thrown parse error. -/
theorem C2_headers_degrade_amended (st : TrafficStorage) (i : Nat) (row : RequestDbRow)
    (hfind : findRow st i = some row)
    (hreq : row.request_headers = "") (hres : row.response_headers = "") :
    getRequestById st i = some (some
      { id := row.id, timestamp := row.timestamp, method := row.method, url := row.url
        host := row.host, path := row.path, status := row.status, requestHeaders := []
        requestBody := row.request_body, responseHeaders := [], responseBody := row.response_body
        contentType := row.content_type, duration := row.duration, size := row.size }) := by
  unfold getRequestById
  rw [hfind]
  show (mapRowToRequest row).map some = _
  unfold mapRowToRequest orEmptyObj
  rw [hreq, hres]
  rfl

/-- C2 witness: the amended theorem applied to a store holding one row with
empty header columns. -/
theorem C2_headers_degrade_witness :
    getRequestById stEmptyHFix 1 = some (some
      { id := 1, timestamp := 100, method := "POST", url := "http://a.test/x"
        host := "a.test", path := "/x", status := 200, requestHeaders := []
        requestBody := none, responseHeaders := [], responseBody := none
        contentType := "", duration := 0, size := 0 }) :=
  C2_headers_degrade_amended stEmptyHFix 1 rowEmptyHFix rfl rfl rfl

/-- C3, counterexample: when a request paused at a request-direction
breakpoint is dropped, the client does receive the 499 "Request dropped by
user" response and no upstream call is made, but the handler returns before
`saveRequest` — the store stays empty, so no row with status 499 (or any row
at all) is persisted for the exchange. -/
theorem C3_drop_counterexample :
    handleRequestEnd oracleTrueFix none (some bpOnFix) .dropped cFix utf8Fix
        (.error "boom") preqFix 100 110 TrafficStorage.empty =
      { store := TrafficStorage.empty
        reply := .text 499 [("Content-Type", "text/plain")] "Request dropped by user"
        upstreamCall := none } ∧
    (handleRequestEnd oracleTrueFix none (some bpOnFix) .dropped cFix utf8Fix
        (.error "boom") preqFix 100 110 TrafficStorage.empty).store.rows = [] := by
  exact ⟨rfl, rfl⟩

/-- C3, amended: dropping at a request breakpoint rejects the pause with
"Request dropped by user", sends the client a 499 response with that body,
opens no upstream connection — and stores nothing: the drop path returns
before the pending row is saved, so no status-499 row exists for the
exchange. -/
theorem C3_drop_amended
    (oracle : RegexOracle) (mocks : Option (List MockRule)) (cfg : BreakpointConfig)
    (c : Codecs) (utf8 : List Nat → String) (upstream : Except String UpstreamResponse)
    (req : PlainRequest) (t1 t2 : Int) (st : TrafficStorage)
    (hmock : mocks.bind
      (fun rules => findMatchingRule oracle rules (methodOrGet req.method) req.url) = none)
    (hbreak : shouldBreak oracle cfg "request" req.url = true)
    (bst : BreakpointState) (i : String) (e : InterceptedRequest)
    (hpend : findPending bst i = some e) :
    bpDrop bst i = (removePending bst i, some (.rejected "Request dropped by user")) ∧
    handleRequestEnd oracle mocks (some cfg) .dropped c utf8 upstream req t1 t2 st =
      { store := st
        reply := .text 499 [("Content-Type", "text/plain")] "Request dropped by user"
        upstreamCall := none } := by
  constructor
  · unfold bpDrop
    rw [hpend]
  · unfold handleRequestEnd
    rw [hmock]
    simp [hbreak]

/-- C3 witness: the amended theorem at a concrete armed breakpoint, pending
entry and empty store. -/
theorem C3_drop_amended_witness :
    bpDrop ⟨[("a", snapFix)]⟩ "a" =
      (removePending ⟨[("a", snapFix)]⟩ "a", some (.rejected "Request dropped by user")) ∧
    handleRequestEnd oracleTrueFix none (some bpOnFix) .dropped cFix utf8Fix
        (.error "boom") preqFix 100 110 TrafficStorage.empty =
      { store := TrafficStorage.empty
        reply := .text 499 [("Content-Type", "text/plain")] "Request dropped by user"
        upstreamCall := none } :=
  C3_drop_amended oracleTrueFix none bpOnFix cFix utf8Fix (.error "boom") preqFix 100 110
    TrafficStorage.empty rfl rfl ⟨[("a", snapFix)]⟩ "a" snapFix rfl

/-- C4, counterexample: two rows share `timestamp = 100` and were inserted as
ids 1 then 2; the unfiltered list comes back `[1, 2]` — equal-timestamp rows
are not ordered by id descending (SQLite's `ORDER BY timestamp DESC` carries
no id tie-break). -/
theorem C4_ordering_counterexample :
    (getRequestsRows stTwo none).map (·.id) = [1, 2] ∧
    ¬ (getRequestsRows stTwo none).Pairwise claimedOrder := by
  refine ⟨by decide, by decide⟩

/-- C4, amended: the list operation is sorted by timestamp descending, for
every filter and pagination setting; the code supplies no id tie-break, so
rows with equal timestamps surface in table (insertion) order rather than by
id descending. -/
theorem C4_ordering_amended (st : TrafficStorage) (f : Option FilterOptions) :
    (getRequestsRows st f).Pairwise tsDesc := by
  have hs : (List.insertionSort tsDesc (st.rows.filter (rowPassesFilter f))).Pairwise tsDesc :=
    List.sorted_insertionSort tsDesc _
  unfold getRequestsRows
  match f with
  | none => exact hs
  | some fo => exact List.Pairwise.sublist (applyPagination_sublist fo.limit fo.offset _) hs

/-- C5, counterexample: an exchange finalised with status 200 is mutated by a
later `updateResponse` — status becomes 500 and the response body changes,
so response fields are not final once `status > 0`. -/
theorem C5_finality_counterexample :
    (findRow c5StFinal 1).map (·.status) = some 200 ∧
    (findRow (updateResponse c5StFinal 1 d500Fix) 1).map (·.status) = some 500 ∧
    (findRow (updateResponse c5StFinal 1 d500Fix) 1).map (·.response_body) =
      some (some "err") := by
  exact ⟨rfl, rfl, rfl⟩

/-- C5, amended: the store does not enforce finality — `updateResponse`
overwrites the response fields of the matching row unconditionally, even when
its status is already non-zero; response fields stay fixed only in the
absence of further `updateResponse` calls for that id. -/
theorem C5_finality_amended (st : TrafficStorage) (i : Nat) (d : ResponseUpdate)
    (row : RequestDbRow) (hfind : findRow st i = some row) (_hstatus : 0 < row.status) :
    findRow (updateResponse st i d) i = some (applyResponseUpdate row d) := by
  rw [findRow_updateResponse, hfind]
  rfl

/-- C5 witness: the amended theorem applied to the finalised (status 200)
fixture store and a second update. -/
theorem C5_finality_witness :
    0 < c5Row.status ∧
    findRow (updateResponse c5StFinal 1 d500Fix) 1 = some (applyResponseUpdate c5Row d500Fix) :=
  ⟨by decide, C5_finality_amended c5StFinal 1 d500Fix c5Row (by decide) (by decide)⟩

/-- C6: when the upstream response carries a supported Content-Encoding whose
decompression succeeds and the decompressed content fits the storage cap, both
response handlers store `size` equal to the on-wire (still-compressed) body
length and `response_body` equal to the decoded decompressed content, and
forward the original on-wire bytes to the client. -/
theorem C6_size_fidelity
    (c : Codecs) (utf8 : List Nat → String) (requestId : Nat) (startTime now : Int)
    (res : UpstreamResponse) (st : TrafficStorage) (dec : List Nat)
    (hdec : supportedDecode c (getHeader res.headers "content-encoding") res.bodyBytes = some dec)
    (hsize : dec.length ≤ maxResponseStoredSize) :
    handleProxyResponseEnd c utf8 requestId startTime now res st =
      (updateResponse st requestId
        { status := res.statusCode
          responseHeaders := res.headers
          responseBody := some (utf8 dec)
          contentType := getHeader res.headers "content-type"
          duration := now - startTime
          size := res.bodyBytes.length },
       .piped (if res.statusCode = 0 then 200 else res.statusCode) res.headers res.bodyBytes) ∧
    httpsResponseEnd c utf8 requestId startTime now res st =
      (updateResponse st requestId
        { status := res.statusCode
          responseHeaders := res.headers
          responseBody := some (utf8 dec)
          contentType := getHeader res.headers "content-type"
          duration := now - startTime
          size := res.bodyBytes.length },
       .piped res.statusCode (removeHeader res.headers "transfer-encoding") res.bodyBytes) := by
  have hd : decompressForStorage c (getHeader res.headers "content-encoding") res.bodyBytes = dec := by
    unfold supportedDecode at hdec
    unfold decompressForStorage
    split_ifs at hdec ⊢ <;> simp_all
  have hb : bodyForStorage utf8 dec = utf8 dec := by
    unfold bodyForStorage
    rw [if_pos hsize]
  constructor
  · simp only [handleProxyResponseEnd, hd, hb]
  · simp only [httpsResponseEnd, hd, hb]

/-- C6 witness: the theorem applied to a gzip-encoded upstream response and a
codec that succeeds on its bytes. -/
theorem C6_size_fidelity_witness :
    supportedDecode cFix (getHeader resFix.headers "content-encoding") resFix.bodyBytes =
      some [104, 105] ∧
    ([104, 105] : List Nat).length ≤ maxResponseStoredSize ∧
    handleProxyResponseEnd cFix utf8Fix 1 100 110 resFix TrafficStorage.empty =
      (updateResponse TrafficStorage.empty 1
        { status := 200
          responseHeaders := resFix.headers
          responseBody := some (utf8Fix [104, 105])
          contentType := getHeader resFix.headers "content-type"
          duration := 10
          size := resFix.bodyBytes.length },
       .piped 200 resFix.headers resFix.bodyBytes) := by
  refine ⟨rfl, by decide, ?_⟩
  exact (C6_size_fidelity cFix utf8Fix 1 100 110 resFix TrafficStorage.empty [104, 105]
    rfl (by decide)).1

/-- C7: when an enabled mock rule matches — on the plain-HTTP path or on the
MITM path, each hypothesised independently — the handler opens no upstream
connection, replies to the client with the rule's literal status, headers and
body, and persists exactly the synthetic exchange in place of an origin
request. -/
theorem C7_mock_precedence :
    (∀ (oracle : RegexOracle) (rules : List MockRule) (bp : Option BreakpointConfig)
        (verdict : BpVerdict) (c : Codecs) (utf8 : List Nat → String)
        (upstream : Except String UpstreamResponse) (req : PlainRequest)
        (t1 t2 : Int) (st : TrafficStorage) (rule : MockRule),
      findMatchingRule oracle rules (methodOrGet req.method) req.url = some rule →
      handleRequestEnd oracle (some rules) bp verdict c utf8 upstream req t1 t2 st =
        { store := (saveRequest st (plainMockCaptured rule req t1 t2)).2
          reply := .text rule.responseStatus rule.responseHeaders rule.responseBody
          upstreamCall := none }) ∧
    (∀ (oracle : RegexOracle) (rules : List MockRule) (c : Codecs)
        (utf8 : List Nat → String) (upstream : Except String UpstreamResponse)
        (hreq : HttpsRequest) (t1 t2 : Int) (st : TrafficStorage) (rule : MockRule),
      findMatchingRule oracle rules hreq.method (httpsFullUrl hreq) = some rule →
      processHttpsRequest oracle (some rules) c utf8 upstream hreq t1 t2 st =
        { store := (saveRequest st (httpsMockCaptured utf8 rule hreq t1 t2)).2
          reply := .text rule.responseStatus rule.responseHeaders rule.responseBody
          upstreamCall := none }) := by
  constructor
  · intro oracle rules bp verdict c utf8 upstream req t1 t2 st rule h1
    unfold handleRequestEnd
    simp [h1, generateMockResponse]
  · intro oracle rules c utf8 upstream hreq t1 t2 st rule h2
    unfold processHttpsRequest
    simp [h2, generateMockResponse]

/-- C7 witness: each conjunct applied to a single always-matching enabled
rule on its own path. -/
theorem C7_mock_precedence_witness :
    handleRequestEnd oracleTrueFix (some [ruleFix]) none (.resume none) cFix utf8Fix
        (.error "sinkhole") preqFix 100 110 TrafficStorage.empty =
      { store := (saveRequest TrafficStorage.empty (plainMockCaptured ruleFix preqFix 100 110)).2
        reply := .text 418 [("content-type", "application/json")] "teapot"
        upstreamCall := none } ∧
    processHttpsRequest oracleTrueFix (some [ruleFix]) cFix utf8Fix
        (.error "sinkhole") hreqFix 100 110 TrafficStorage.empty =
      { store :=
          (saveRequest TrafficStorage.empty (httpsMockCaptured utf8Fix ruleFix hreqFix 100 110)).2
        reply := .text 418 [("content-type", "application/json")] "teapot"
        upstreamCall := none } :=
  ⟨C7_mock_precedence.1 oracleTrueFix [ruleFix] none (.resume none) cFix utf8Fix
    (.error "sinkhole") preqFix 100 110 TrafficStorage.empty ruleFix rfl,
   C7_mock_precedence.2 oracleTrueFix [ruleFix] cFix utf8Fix
    (.error "sinkhole") hreqFix 100 110 TrafficStorage.empty ruleFix rfl⟩

/-- C8: `findMatchingRule` returns exactly the first rule, in iteration
order, that is enabled, whose method filter does not exclude the request
method, and whose pattern compiles and matches case-insensitively (via the
oracle); rules with invalid patterns are skipped, and `none` is returned when
no rule qualifies — this is `List.find?` of the qualification predicate. -/
theorem C8_find_first_match (oracle : RegexOracle) (method url : String)
    (rules : List MockRule) :
    findMatchingRule oracle rules method url = rules.find? (ruleQualifies oracle method url) := by
  induction rules with
  | nil => rfl
  | cons r t ih =>
    by_cases he : r.enabled
    · by_cases hm : ruleSkipsByMethod r.method method = true
      · simp [findMatchingRule, ruleQualifies, List.find?, he, hm, ih]
      · cases ho : oracle r.urlPattern url with
        | none => simp [findMatchingRule, ruleQualifies, List.find?, he, hm, ho, ih]
        | some b =>
          cases b <;> simp [findMatchingRule, ruleQualifies, List.find?, he, hm, ho, ih]
    · simp [findMatchingRule, ruleQualifies, List.find?, he, ih]

/-- C9: resolving a paused breakpoint with `continue(id)` and no modification
resolves to the original snapshot (identity resume), so the awaiting handler
forwards the original method, headers and body upstream; `continue` or `drop`
on an id with no pending entry changes nothing and resolves nothing. -/
theorem C9_identity_resume :
    (∀ (bst : BreakpointState) (i : String) (e : InterceptedRequest),
      findPending bst i = some e →
      bpContinue bst i none = (removePending bst i, some (.resolved e))) ∧
    (∀ (bst : BreakpointState) (i : String),
      findPending bst i = none →
      (∀ m, bpContinue bst i m = (bst, none)) ∧ bpDrop bst i = (bst, none)) ∧
    (∀ (oracle : RegexOracle) (cfg : BreakpointConfig) (c : Codecs)
        (utf8 : List Nat → String) (upstream : Except String UpstreamResponse)
        (req : PlainRequest) (uuid : String) (ts t1 t2 : Int) (st : TrafficStorage),
      shouldBreak oracle cfg "request" req.url = true →
      (handleRequestEnd oracle none (some cfg)
          (.resume (some (plainRequestSnapshot uuid ts req))) c utf8 upstream req t1 t2
          st).upstreamCall =
        some ⟨methodOrGet req.method, req.headers, req.bodyStr⟩) := by
  refine ⟨?_, ?_, ?_⟩
  · intro bst i e h
    unfold bpContinue
    rw [h]
    rfl
  · intro bst i h
    constructor
    · intro m
      unfold bpContinue
      rw [h]
    · unfold bpDrop
      rw [h]
  · intro oracle cfg c utf8 upstream req uuid ts t1 t2 st h
    unfold handleRequestEnd
    cases upstream <;> simp [h, plainRequestSnapshot, forwardPhase]

/-- C9 witness: identity resume on a pending entry, no-ops on an unknown id,
and the original tuple forwarded by the plain-HTTP handler. -/
theorem C9_identity_resume_witness :
    bpContinue ⟨[("a", snapFix)]⟩ "a" none =
      (removePending ⟨[("a", snapFix)]⟩ "a", some (.resolved snapFix)) ∧
    bpContinue ⟨[("a", snapFix)]⟩ "b" none = (⟨[("a", snapFix)]⟩, none) ∧
    bpDrop ⟨[("a", snapFix)]⟩ "b" = (⟨[("a", snapFix)]⟩, none) ∧
    (handleRequestEnd oracleTrueFix none (some bpOnFix)
        (.resume (some (plainRequestSnapshot "a" 100 preqFix))) cFix utf8Fix
        (.error "e") preqFix 100 110 TrafficStorage.empty).upstreamCall =
      some ⟨methodOrGet preqFix.method, preqFix.headers, preqFix.bodyStr⟩ :=
  ⟨C9_identity_resume.1 ⟨[("a", snapFix)]⟩ "a" snapFix rfl,
   (C9_identity_resume.2.1 ⟨[("a", snapFix)]⟩ "b" rfl).1 none,
   (C9_identity_resume.2.1 ⟨[("a", snapFix)]⟩ "b" rfl).2,
   C9_identity_resume.2.2 oracleTrueFix bpOnFix cFix utf8Fix (.error "e") preqFix "a"
     100 100 110 TrafficStorage.empty rfl⟩

theorem runComposer_ids (calls : List ComposerCall) :
    ∀ m : Nat, (runComposer ⟨m⟩ calls).map (·.id) =
      (List.range calls.length).map (m + ·) := by
  induction calls with
  | nil => intro m; rfl
  | cons call t ih =>
    intro m
    show m :: (runComposer ⟨m + 1⟩ t).map (·.id) = (List.range (t.length + 1)).map (m + ·)
    rw [List.range_succ_eq_map, List.map_cons, List.map_map, ih (m + 1)]
    congr 1
    exact List.map_congr_left (fun k _ => by simp [Function.comp]; omega)

/-- C10: every capture returned by the composer's `sendRequest` takes its id
from the private counter: starting from the initial state, the n-th call
returns id `1000000 + n` (so each id is at least 1000000 and increases by
exactly one per call), any store row whose auto-increment id is still below
1000000 cannot collide with a composer id, and `replayRequest` draws from the
same counter. -/
theorem C10_composer_ids :
    (∀ calls : List ComposerCall,
      (runComposer ComposerState.init calls).map (·.id) =
        (List.range calls.length).map (1000000 + ·)) ∧
    (∀ (calls : List ComposerCall) (cap : CapturedRequest),
      cap ∈ runComposer ComposerState.init calls → 1000000 ≤ cap.id) ∧
    (∀ (calls : List ComposerCall) (cap : CapturedRequest) (st : TrafficStorage)
        (r : RequestDbRow), cap ∈ runComposer ComposerState.init calls →
      r ∈ st.rows → r.id < 1000000 → r.id ≠ cap.id) ∧
    (∀ (cs : ComposerState) (orig : CapturedRequest) (h p : String) (t1 t2 : Int)
        (res : ComposerResponse),
      (composerReplayRequest cs orig h p t1 t2 res).1.id = cs.requestIdCounter ∧
      (composerReplayRequest cs orig h p t1 t2 res).2.requestIdCounter =
        cs.requestIdCounter + 1) := by
  have hids : ∀ calls : List ComposerCall,
      (runComposer ComposerState.init calls).map (·.id) =
        (List.range calls.length).map (1000000 + ·) :=
    fun calls => runComposer_ids calls 1000000
  have hge : ∀ (calls : List ComposerCall) (cap : CapturedRequest),
      cap ∈ runComposer ComposerState.init calls → 1000000 ≤ cap.id := by
    intro calls cap hmem
    have hm : cap.id ∈ (runComposer ComposerState.init calls).map (·.id) :=
      List.mem_map_of_mem _ hmem
    rw [hids calls] at hm
    obtain ⟨k, _, hk⟩ := List.mem_map.mp hm
    omega
  refine ⟨hids, hge, ?_, ?_⟩
  · intro calls cap st r hmem _hrow hlt
    have := hge calls cap hmem
    omega
  · intro cs orig h p t1 t2 res
    exact ⟨rfl, rfl⟩

/-- C10 witness: the first composer capture has id 1000000 ≥ 1000000, and the
fixture store row (id 1 < 1000000) cannot collide with it. -/
theorem C10_composer_ids_witness :
    1000000 ≤ capFix.id ∧ wfRow1.id ≠ capFix.id :=
  ⟨C10_composer_ids.2.1 [callFix] capFix (List.Mem.head _),
   C10_composer_ids.2.2.1 [callFix] capFix stOne wfRow1 (List.Mem.head _)
     (List.Mem.head _) (by decide)⟩

end Trafexia
